import Mathlib

/-!
# Verification of `kubespawner/reflector.py`

A shallow embedding of `NamespacedResourceReflector` from
`src/kubespawner/reflector.py`, together with theorems settling the spec
claims about it.

Modelling conventions:

* The mirror `self.resources` is a Python `dict` keyed by `pod.metadata.name`.
  We embed it as an association list `List (K × R)` with the exact `dict`
  operation semantics: assignment to an existing key updates it in place
  (keeping its position), assignment to a fresh key appends, and
  `pop(k, None)` removes the entry if present and does nothing otherwise.
  Two dicts built by the same operation sequences are structurally equal,
  so structural equality of these lists is a faithful (indeed finer)
  rendering of dict equality.
* Resource objects are an abstract type `R` with a key projection
  `name : R → K` standing for `pod.metadata.name`.
* `cur_delay` is a Python float.  The only arithmetic the source performs
  on it is doubling (`cur_delay * 2`, exact in binary floating point) and
  the comparison `cur_delay > 30`, so every value it takes is the float
  nearest `0.1` times a power of two, and the comparison with `30` gives
  the same answer as comparing the exact decimal `0.1 * 2^n` with `30`
  (no reachable value is near the threshold).  We therefore embed the
  delay exactly, in tenths of a second, as a `ℕ`: `0.1` becomes `1`,
  doubling stays doubling, and `cur_delay > 30` becomes `curDelay > 300`.
-/

/-- Python dict assignment `m[k] = v`: update the existing entry in place
(keeping its position) or append a new entry. Embeds line 126,
`self.resources[pod.metadata.name] = pod`. -/
def dictSet {K R : Type} [DecidableEq K] : List (K × R) → K → R → List (K × R)
  | [], k, v => [(k, v)]
  | (k', v') :: rest, k, v =>
    if k' = k then (k, v) :: rest else (k', v') :: dictSet rest k v

/-- Python `m.pop(k, None)`: remove the entry at `k` if present, no effect
(and no error) if absent. Embeds line 123,
`self.resources.pop(pod.metadata.name, None)`. -/
def dictPop {K R : Type} [DecidableEq K] : List (K × R) → K → List (K × R)
  | [], _ => []
  | (k', v') :: rest, k =>
    if k' = k then rest else (k', v') :: dictPop rest k

/-- Python `m.get(k)` / `m[k]` read. -/
def dictGet {K R : Type} [DecidableEq K] : List (K × R) → K → Option R
  | [], _ => none
  | (k', v') :: rest, k => if k' = k then some v' else dictGet rest k

/-- The dict comprehension of line 83:
`{p.metadata.name: p for p in initial_resources.items}` — sequential
insertion into a fresh empty dict. -/
def buildMirror {K R : Type} [DecidableEq K] (name : R → K) (items : List R) :
    List (K × R) :=
  items.foldl (fun m p => dictSet m (name p) p) []

/-- `_list_and_update` (lines 72–83): performs the full fetch and assigns
`self.resources = {p.metadata.name: p for p in initial_resources.items}`,
discarding the previous mirror entirely. `prev` is the mirror before the
call; `items` is what the list method returned. -/
def list_and_update {K R : Type} [DecidableEq K] (name : R → K)
    (prev : List (K × R)) (items : List R) : List (K × R) :=
  let _ := prev
  buildMirror name items

/-- One event from `w.stream(...)`: a Python dict
`{type: <string>, object: <resource>}`. The kind is a plain string, as in
the source's comparison `ev['type'] == 'DELETED'`. -/
structure WatchEvent (R : Type) where
  type : String
  object : R
deriving DecidableEq

/-- The body of the `for ev in w.stream(...)` loop, lines 120–126, acting on
the mirror only (the `cur_delay` reset of line 119 is handled in the loop
model below): `DELETED` pops the key, every other kind assigns. -/
def applyEvent {K R : Type} [DecidableEq K] (name : R → K)
    (m : List (K × R)) (ev : WatchEvent R) : List (K × R) :=
  if ev.type = "DELETED" then dictPop m (name ev.object)
  else dictSet m (name ev.object) ev.object

/-- The three event kinds the spec names. -/
inductive SpecKind
  | ADDED
  | MODIFIED
  | DELETED
deriving DecidableEq

/-- The wire string for each spec kind. -/
def SpecKind.toType : SpecKind → String
  | .ADDED => "ADDED"
  | .MODIFIED => "MODIFIED"
  | .DELETED => "DELETED"

/-- Modelled from the spec's words (§8, first property), for comparison with
the source's `applyEvent`: "ADDED/MODIFIED sets `mirror[key] = object` and
DELETED removes `key` if present". -/
def specFoldStep {K R : Type} [DecidableEq K] (name : R → K)
    (m : List (K × R)) (ev : SpecKind × R) : List (K × R) :=
  match ev.1 with
  | .DELETED => dictPop m (name ev.2)
  | .ADDED => dictSet m (name ev.2) ev.2
  | .MODIFIED => dictSet m (name ev.2) ev.2

/-- Last fetched resource with a given name: characterises the dict
comprehension of line 83 (later duplicates overwrite earlier ones). -/
def lastWith {K R : Type} [DecidableEq K] (name : R → K) (items : List R)
    (k : K) : Option R :=
  items.foldl (fun acc p => if name p = k then some p else acc) none

/-! ## The `_watch_and_update` loop (lines 85–135)

One iteration of `while True:` is modelled by `loopStep`.  Control only
returns to the `while` loop through an exception (the stream is infinite),
so an iteration's external behaviour is described by an `IterInput`: either
`_list_and_update` raises (`fetch = none`), or the fetch succeeds with
`items`, the watch is constructed and streamed, `events` arrive (each one
resetting `cur_delay` to `0.1` at line 119 and updating the mirror per
lines 120–126), and then the stream raises.

The local variable `w` is only assigned at line 113, after a successful
fetch; on the very first iteration a fetch failure reaches the
`finally: w.stop()` of line 135 with `w` unbound, which raises `NameError`
and terminates the thread.  `watchBound` tracks whether `w` has ever been
assigned (Python `try`-locals survive across iterations of the enclosing
`while`). -/

/-- Mutable state of the watch thread: the shared mirror, the float
`cur_delay` (exactly represented in tenths of a second, see the header:
`curDelay = t` stands for `cur_delay == 0.1 * t`), and whether the local
`w` has ever been bound. -/
structure LoopState (K R : Type) where
  resources : List (K × R)
  curDelay : ℕ
  watchBound : Bool
deriving DecidableEq

/-- External behaviour of one iteration: `fetch = none` means
`_list_and_update()` raised; `fetch = some items` means it returned
`items`, after which `events` were streamed and then the stream raised
(every modelled iteration ends in an exception, since that is the only way
control returns to the `while` loop). -/
structure IterInput (R : Type) where
  fetch : Option (List R)
  events : List (WatchEvent R)
deriving DecidableEq

/-- How one iteration ends, after the `except`/`finally` blocks of lines
127–135 run. -/
inductive StepOutcome (K R : Type)
  /-- The handler slept and reached `continue`; `finally` ran `w.stop()`
  successfully; the next iteration begins with state `s`. -/
  | continueLoop (s : LoopState K R)
  /-- `cur_delay > 30`: the handler re-raised the triggering error (line
  132) and it propagated out of the loop, terminating the thread. -/
  | fatal (s : LoopState K R)
  /-- `finally: w.stop()` (line 135) raised `NameError` because `w` was
  never assigned; the thread dies with `NameError` instead. -/
  | nameError (s : LoopState K R)
deriving DecidableEq

/-- The event handler of lines 119–126: reset `cur_delay` to `0.1` (one
tenth), then apply the event to the mirror. -/
def handleEvent {K R : Type} [DecidableEq K] (name : R → K)
    (s : LoopState K R) (ev : WatchEvent R) : LoopState K R :=
  { s with curDelay := 1, resources := applyEvent name s.resources ev }

/-- One iteration of the `while True:` loop of lines 109–135.  On an
exception: `cur_delay` doubles (line 128), the failure is logged and slept
through (lines 129–130), then either the error is re-raised when
`cur_delay > 30` (lines 131–132) or `continue` runs (line 133); in every
case the `finally` block (line 135) calls `w.stop()`, which raises
`NameError` - superseding any pending re-raise - when `w` was never
assigned. -/
def loopStep {K R : Type} [DecidableEq K] (name : R → K)
    (s : LoopState K R) (inp : IterInput R) : StepOutcome K R :=
  match inp.fetch with
  | none =>
    let s' := { s with curDelay := s.curDelay * 2 }
    if s.watchBound then
      if s'.curDelay > 300 then .fatal s' else .continueLoop s'
    else
      .nameError s'
  | some items =>
    let s1 : LoopState K R :=
      { s with resources := list_and_update name s.resources items,
               watchBound := true }
    let s2 := inp.events.foldl (handleEvent name) s1
    let s3 := { s2 with curDelay := s2.curDelay * 2 }
    if s3.curDelay > 300 then .fatal s3 else .continueLoop s3

/-- Result of running the loop against a finite script of iteration
behaviours: either the script is exhausted with the loop still alive, or
the thread terminated (fatally re-raising, or crashing with `NameError`). -/
inductive RunResult (K R : Type)
  | running (s : LoopState K R)
  | fatal (s : LoopState K R)
  | nameError (s : LoopState K R)
deriving DecidableEq

/-- Run `_watch_and_update` against a finite script of iteration
behaviours, starting from loop state `s`.  On thread entry the state is
`⟨resources, 1, false⟩`: line 108 sets `cur_delay = 0.1` (one tenth) and
`w` is not yet bound. -/
def runLoop {K R : Type} [DecidableEq K] (name : R → K)
    (s : LoopState K R) : List (IterInput R) → RunResult K R
  | [] => .running s
  | inp :: rest =>
    match loopStep name s inp with
    | .continueLoop s' => runLoop name s' rest
    | .fatal s' => .fatal s'
    | .nameError s' => .nameError s'

/-! ## The `start` method (lines 137–154) -/

/-- Observable steps `start` takes, in source order: the
`hasattr(self, 'watch_thread')` guard (line 147), the blocking
`self._list_and_update()` (line 150), `threading.Thread(...)` construction
(line 151) and `.start()` (line 154). -/
inductive StartAction
  | checkRunning
  | fullFetch
  | createThread
  | startThread
deriving DecidableEq

/-- The `ValueError` of line 148. -/
inductive StartError
  | alreadyRunning
deriving DecidableEq

/-- Instance state visible to `start`: the mirror, whether the
`watch_thread` attribute exists, and counters for how many threads have
been created/started and how many full fetches have run (instrumentation
for "no second context" / "no fetch happened"). -/
structure ReflectorState (K R : Type) where
  resources : List (K × R)
  hasWatchThread : Bool
  threadsStarted : ℕ
  fetchCount : ℕ
deriving DecidableEq

/-- What a call to `start` produced: the trace of actions it performed in
order, the instance state after the call, and the error it raised, if any. -/
structure StartResult (K R : Type) where
  trace : List StartAction
  state : ReflectorState K R
  err : Option StartError
deriving DecidableEq

/-- `start` (lines 137–154): raise `ValueError` immediately when
`watch_thread` already exists; otherwise run one blocking full fetch
returning `items`, then create and start the daemon watch thread. -/
def start {K R : Type} [DecidableEq K] (name : R → K) (items : List R)
    (s : ReflectorState K R) : StartResult K R :=
  if s.hasWatchThread then
    { trace := [.checkRunning], state := s, err := some .alreadyRunning }
  else
    let s1 := { s with resources := list_and_update name s.resources items,
                       fetchCount := s.fetchCount + 1 }
    let s2 := { s1 with hasWatchThread := true,
                        threadsStarted := s1.threadsStarted + 1 }
    { trace := [.checkRunning, .fullFetch, .createThread, .startThread],
      state := s2, err := none }

/-- Modelled from the spec's words (§3, BackoffState: "reset to a floor
value on every successful (re)subscription"), for comparison with
`loopStep`: identical to `loopStep` except that the delay is reset to the
floor as soon as the subscription is successfully opened, before any event
arrives. -/
def loopStepResetOnSubscribe {K R : Type} [DecidableEq K] (name : R → K)
    (s : LoopState K R) (inp : IterInput R) : StepOutcome K R :=
  match inp.fetch with
  | none =>
    let s' := { s with curDelay := s.curDelay * 2 }
    if s.watchBound then
      if s'.curDelay > 300 then .fatal s' else .continueLoop s'
    else
      .nameError s'
  | some items =>
    let s1 : LoopState K R :=
      { s with resources := list_and_update name s.resources items,
               watchBound := true, curDelay := 1 }
    let s2 := inp.events.foldl (handleEvent name) s1
    let s3 := { s2 with curDelay := s2.curDelay * 2 }
    if s3.curDelay > 300 then .fatal s3 else .continueLoop s3

/-! ## Helper lemmas -/

theorem dictGet_dictSet_self {K R : Type} [DecidableEq K]
    (m : List (K × R)) (k : K) (v : R) : dictGet (dictSet m k v) k = some v := by
  induction m with
  | nil => simp [dictSet, dictGet]
  | cons hd tl ih =>
    obtain ⟨k', v'⟩ := hd
    by_cases h : k' = k <;> simp [dictSet, dictGet, h, ih]

theorem dictGet_dictSet_ne {K R : Type} [DecidableEq K]
    (m : List (K × R)) (k k' : K) (v : R) (h : k' ≠ k) :
    dictGet (dictSet m k v) k' = dictGet m k' := by
  induction m with
  | nil => simp [dictSet, dictGet, Ne.symm h]
  | cons hd tl ih =>
    obtain ⟨k₀, v₀⟩ := hd
    by_cases h₀ : k₀ = k
    · subst h₀
      simp [dictSet, dictGet, Ne.symm h]
    · simp [dictSet, dictGet, h₀, ih]

theorem dictGet_dictSet {K R : Type} [DecidableEq K]
    (m : List (K × R)) (k k' : K) (v : R) :
    dictGet (dictSet m k v) k' = if k = k' then some v else dictGet m k' := by
  by_cases h : k = k'
  · subst h; simp [dictGet_dictSet_self]
  · simp [h, dictGet_dictSet_ne m k k' v (fun hh => h hh.symm)]

theorem dictPop_of_get_none {K R : Type} [DecidableEq K]
    (m : List (K × R)) (k : K) (h : dictGet m k = none) : dictPop m k = m := by
  induction m with
  | nil => simp [dictPop]
  | cons hd tl ih =>
    obtain ⟨k', v'⟩ := hd
    by_cases h' : k' = k
    · simp [dictGet, h'] at h
    · simp [dictGet, h'] at h
      simp [dictPop, h', ih h]

theorem foldl_dictSet_get {K R : Type} [DecidableEq K] (name : R → K)
    (items : List R) (m0 : List (K × R)) (k : K) :
    dictGet (items.foldl (fun m p => dictSet m (name p) p) m0) k
      = items.foldl (fun acc p => if name p = k then some p else acc)
          (dictGet m0 k) := by
  induction items generalizing m0 with
  | nil => rfl
  | cons p items ih =>
    simp only [List.foldl_cons, ih, dictGet_dictSet]

theorem buildMirror_get {K R : Type} [DecidableEq K] (name : R → K)
    (items : List R) (k : K) :
    dictGet (buildMirror name items) k = lastWith name items k := by
  simp [buildMirror, lastWith, foldl_dictSet_get, dictGet]

theorem runLoop_append {K R : Type} [DecidableEq K] (name : R → K)
    (s : LoopState K R) (xs ys : List (IterInput R)) :
    runLoop name s (xs ++ ys)
      = match runLoop name s xs with
        | .running s' => runLoop name s' ys
        | .fatal s' => .fatal s'
        | .nameError s' => .nameError s' := by
  induction xs generalizing s with
  | nil => rfl
  | cons inp xs ih =>
    simp only [List.cons_append, runLoop]
    cases loopStep name s inp <;> simp [runLoop, ih]

theorem foldl_handleEvent_watchBound {K R : Type} [DecidableEq K]
    (name : R → K) (evs : List (WatchEvent R)) (s : LoopState K R) :
    (evs.foldl (handleEvent name) s).watchBound = s.watchBound := by
  induction evs generalizing s with
  | nil => rfl
  | cons ev evs ih => simp [List.foldl_cons, ih, handleEvent]

theorem foldl_handleEvent_curDelay {K R : Type} [DecidableEq K]
    (name : R → K) (evs : List (WatchEvent R)) (s : LoopState K R)
    (h : evs ≠ []) : (evs.foldl (handleEvent name) s).curDelay = 1 := by
  induction evs generalizing s with
  | nil => exact absurd rfl h
  | cons ev evs ih =>
    cases evs with
    | nil => rfl
    | cons ev' evs' => exact ih (handleEvent name s ev) (by simp)

theorem runLoop_consecutive_failures {K R : Type} [DecidableEq K]
    (name : R → K) (n : ℕ) (d : ℕ) (m0 : List (K × R)) (hd : 0 < d)
    (hle : d * 2 ^ n ≤ 300) :
    runLoop name ⟨m0, d, true⟩ (List.replicate n ⟨none, []⟩)
      = .running ⟨m0, d * 2 ^ n, true⟩ := by
  induction n generalizing d with
  | zero => simp [runLoop]
  | succ n ih =>
    have h2 : d * 2 ≤ 300 := by
      calc d * 2 = d * 2 ^ 1 := by ring
        _ ≤ d * 2 ^ (n + 1) :=
          Nat.mul_le_mul_left d (Nat.pow_le_pow_right (by norm_num) (by omega))
        _ ≤ 300 := hle
    have hpow : d * 2 * 2 ^ n = d * 2 ^ (n + 1) := by ring
    have step : loopStep name (⟨m0, d, true⟩ : LoopState K R) ⟨none, []⟩
        = .continueLoop ⟨m0, d * 2, true⟩ := by
      simp [loopStep, Nat.not_lt.mpr h2]
    have hrec := ih (d * 2) (by omega) (by rw [hpow]; exact hle)
    rw [List.replicate_succ, runLoop, step]
    show runLoop name (⟨m0, d * 2, true⟩ : LoopState K R)
        (List.replicate n ⟨none, []⟩)
      = .running ⟨m0, d * 2 ^ (n + 1), true⟩
    rw [hrec, hpow]

theorem foldl_lastWith_aux {K R : Type} [DecidableEq K] (name : R → K)
    (items : List R) (k : K) (acc : Option R) (v : R)
    (h : items.foldl (fun acc p => if name p = k then some p else acc) acc
        = some v) :
    (v ∈ items ∧ name v = k) ∨ acc = some v := by
  induction items generalizing acc with
  | nil => exact Or.inr h
  | cons p items ih =>
    rcases ih (if name p = k then some p else acc) h with h' | h'
    · exact Or.inl ⟨List.mem_cons_of_mem p h'.1, h'.2⟩
    · by_cases hp : name p = k
      · simp only [hp, if_pos] at h'
        obtain rfl := Option.some_inj.mp h'
        exact Or.inl ⟨List.mem_cons_self p items, hp⟩
      · simp only [hp, if_neg] at h'
        exact Or.inr h'

theorem lastWith_eq_some {K R : Type} [DecidableEq K] (name : R → K)
    (items : List R) (k : K) (v : R) (h : lastWith name items k = some v) :
    v ∈ items ∧ name v = k := by
  rcases foldl_lastWith_aux name items k none v h with h' | h'
  · exact h'
  · exact absurd h' (by simp)

theorem loopStep_some {K R : Type} [DecidableEq K] (name : R → K)
    (s : LoopState K R) (items : List R) (evs : List (WatchEvent R)) :
    loopStep name s ⟨some items, evs⟩ =
      if (evs.foldl (handleEvent name)
            ⟨list_and_update name s.resources items, s.curDelay, true⟩).curDelay
          * 2 > 300
      then .fatal
        ⟨(evs.foldl (handleEvent name)
            ⟨list_and_update name s.resources items, s.curDelay, true⟩).resources,
         (evs.foldl (handleEvent name)
            ⟨list_and_update name s.resources items, s.curDelay, true⟩).curDelay * 2,
         (evs.foldl (handleEvent name)
            ⟨list_and_update name s.resources items, s.curDelay, true⟩).watchBound⟩
      else .continueLoop
        ⟨(evs.foldl (handleEvent name)
            ⟨list_and_update name s.resources items, s.curDelay, true⟩).resources,
         (evs.foldl (handleEvent name)
            ⟨list_and_update name s.resources items, s.curDelay, true⟩).curDelay * 2,
         (evs.foldl (handleEvent name)
            ⟨list_and_update name s.resources items, s.curDelay, true⟩).watchBound⟩ :=
  rfl

theorem applyEvent_toType {K R : Type} [DecidableEq K] (name : R → K)
    (m : List (K × R)) (kind : SpecKind) (r : R) :
    applyEvent name m ⟨kind.toType, r⟩ = specFoldStep name m (kind, r) := by
  cases kind
  · simp only [applyEvent, SpecKind.toType, specFoldStep]
    rw [if_neg (by decide)]
  · simp only [applyEvent, SpecKind.toType, specFoldStep]
    rw [if_neg (by decide)]
  · simp [applyEvent, SpecKind.toType, specFoldStep]

/-! ## Claim theorems -/

/-- Claim C1: starting from the mirror produced by a full fetch, applying
any finite sequence of events tagged ADDED, MODIFIED, or DELETED one at a
time with the source's handler (`applyEvent`, lines 120–126) yields
exactly the fetch snapshot folded with the spec's rule (`specFoldStep`:
ADDED/MODIFIED insert-or-overwrite at the object's name, DELETED remove
the name if present). -/
theorem C1_events_fold_as_spec {K R : Type} [DecidableEq K] (name : R → K)
    (items : List R) (events : List (SpecKind × R)) :
    (events.map fun e => WatchEvent.mk e.1.toType e.2).foldl
        (applyEvent name) (buildMirror name items)
      = events.foldl (specFoldStep name) (buildMirror name items) := by
  generalize buildMirror name items = m
  induction events generalizing m with
  | nil => rfl
  | cons e events ih =>
    obtain ⟨kind, r⟩ := e
    simp only [List.map_cons, List.foldl_cons, applyEvent_toType, ih]

/-- Claim C4: a successful full fetch wholly replaces the mirror: the
result of `list_and_update` does not depend on the previous mirror, and
the lookup at every key is the last fetched resource with that name
(`lastWith`), so no entry of the previous mirror survives unless a fetched
resource has its name; any surviving value is itself one of the fetched
resources. -/
theorem C4_full_fetch_overwrites {K R : Type} [DecidableEq K]
    (name : R → K) (prev : List (K × R)) (items : List R) (k : K) :
    list_and_update name prev items = buildMirror name items
      ∧ dictGet (list_and_update name prev items) k = lastWith name items k
      ∧ ∀ v : R, dictGet (list_and_update name prev items) k = some v →
          v ∈ items ∧ name v = k := by
  refine ⟨rfl, buildMirror_get name items k, fun v hv => ?_⟩
  exact lastWith_eq_some name items k v ((buildMirror_get name items k) ▸ hv)

/-- Claim C4, witnessed at a concrete input: previous mirror `[(7, 7)]`,
fetch returning `[3, 4]`, keys `7` (dropped) and `4` (present). -/
theorem C4_full_fetch_overwrites_holds :
    (list_and_update (id : ℕ → ℕ) [(7, 7)] [3, 4] = buildMirror id [3, 4]
        ∧ dictGet (list_and_update (id : ℕ → ℕ) [(7, 7)] [3, 4]) 7
          = lastWith id [3, 4] 7)
      ∧ ((4 : ℕ) ∈ [3, 4] ∧ (id 4 : ℕ) = 4) :=
  ⟨⟨(C4_full_fetch_overwrites id [(7, 7)] [3, 4] 7).1,
    (C4_full_fetch_overwrites id [(7, 7)] [3, 4] 7).2.1⟩,
   (C4_full_fetch_overwrites id [(7, 7)] [3, 4] 4).2.2 4 (by decide)⟩

/-- Claim C8: a DELETED event for a key absent from the mirror leaves the
mirror exactly unchanged (Python's `pop(k, None)` raises nothing). -/
theorem C8_deleted_absent_is_noop {K R : Type} [DecidableEq K]
    (name : R → K) (m : List (K × R)) (obj : R)
    (h : dictGet m (name obj) = none) :
    applyEvent name m ⟨"DELETED", obj⟩ = m := by
  simpa [applyEvent] using dictPop_of_get_none m (name obj) h

/-- Claim C8, witnessed at a concrete input: deleting the absent key `1`
from the mirror `[(0, 5)]`. -/
theorem C8_deleted_absent_is_noop_holds :
    dictGet [((0 : ℕ), (5 : ℕ))] (id 1) = none
      ∧ applyEvent (id : ℕ → ℕ) [(0, 5)] ⟨"DELETED", 1⟩ = [(0, 5)] :=
  ⟨by decide, C8_deleted_absent_is_noop id [(0, 5)] 1 (by decide)⟩

/-- Claim C9: the handler distinguishes only the string "DELETED": every
event of any other kind — including kinds such as "ERROR" — is applied as
an insert-or-overwrite at the object's name, exactly like ADDED/MODIFIED. -/
theorem C9_non_deleted_means_set {K R : Type} [DecidableEq K]
    (name : R → K) (m : List (K × R)) (ev : WatchEvent R)
    (h : ev.type ≠ "DELETED") :
    applyEvent name m ev = dictSet m (name ev.object) ev.object
      ∧ dictGet (applyEvent name m ev) (name ev.object) = some ev.object := by
  refine ⟨by simp [applyEvent, h], ?_⟩
  simp [applyEvent, h, dictGet_dictSet_self]

/-- Claim C9, witnessed at a concrete input: an event of the unknown kind
"ERROR" overwrites the entry at its object's name. -/
theorem C9_non_deleted_means_set_holds :
    (WatchEvent.mk "ERROR" (2 : ℕ)).type ≠ "DELETED"
      ∧ applyEvent (id : ℕ → ℕ) [(2, 9)] ⟨"ERROR", 2⟩ = dictSet [(2, 9)] 2 2
      ∧ dictGet (applyEvent (id : ℕ → ℕ) [(2, 9)] ⟨"ERROR", 2⟩) 2 = some 2 :=
  ⟨by decide,
   (C9_non_deleted_means_set id [(2, 9)] ⟨"ERROR", 2⟩ (by decide)).1,
   (C9_non_deleted_means_set id [(2, 9)] ⟨"ERROR", 2⟩ (by decide)).2⟩

/-- Claim C2 is refuted by the code: when `_list_and_update()` raises on
the very first iteration of the `while True:` loop, the handler doubles
the delay, logs and sleeps, but the `finally: w.stop()` of line 135 then
executes with the local `w` never assigned, so the thread dies with
`NameError` instead of re-entering SNAPSHOTTING.  Evaluated here from the
thread-entry state (`cur_delay = 0.1`, i.e. one tenth, `w` unbound) on a
first-iteration fetch failure, both as a single step and as a loop run. -/
theorem C2_first_iteration_failure_crashes :
    loopStep (id : ℕ → ℕ) ⟨[], 1, false⟩ ⟨none, []⟩
        = .nameError ⟨[], 2, false⟩
      ∧ runLoop (id : ℕ → ℕ) ⟨[], 1, false⟩ [⟨none, []⟩]
        = .nameError ⟨[], 2, false⟩ :=
  ⟨rfl, rfl⟩

/-- Claim C3: with floor `0.1 s` (one tenth) and ceiling `30 s` (300
tenths), after `n ≤ 8` consecutive failures with no intervening successful
event the delay is `0.1 * 2 ^ n` seconds (`2 ^ n` tenths: 0.2 s, 0.4 s,
…, 25.6 s) and the loop is still retrying, while the ninth consecutive
failure computes `0.1 * 2 ^ 9 = 51.2` s, exceeds the ceiling, and the loop
terminates by re-raising the triggering error instead of retrying. -/
theorem C3_backoff_sequence {K R : Type} [DecidableEq K] (name : R → K)
    (m0 : List (K × R)) (n : ℕ) (h : n ≤ 8) :
    runLoop name ⟨m0, 1, true⟩ (List.replicate n ⟨none, []⟩)
        = .running ⟨m0, 2 ^ n, true⟩
      ∧ runLoop name ⟨m0, 1, true⟩ (List.replicate 9 ⟨none, []⟩)
        = .fatal ⟨m0, 2 ^ 9, true⟩ := by
  have h8 : ∀ k : ℕ, k ≤ 8 →
      runLoop name (⟨m0, 1, true⟩ : LoopState K R)
        (List.replicate k ⟨none, []⟩) = .running ⟨m0, 2 ^ k, true⟩ := by
    intro k hk
    have hle : 1 * 2 ^ k ≤ 300 := by
      have : (2 : ℕ) ^ k ≤ 2 ^ 8 := Nat.pow_le_pow_right (by norm_num) hk
      simpa using this.trans (by norm_num)
    simpa using runLoop_consecutive_failures name k 1 m0 (by norm_num) hle
  refine ⟨h8 n h, ?_⟩
  have hsplit : (List.replicate 9 (⟨none, []⟩ : IterInput R))
      = List.replicate 8 ⟨none, []⟩ ++ [⟨none, []⟩] := by
    rw [← List.replicate_succ']
  rw [hsplit, runLoop_append, h8 8 (by norm_num)]
  show runLoop name (⟨m0, 2 ^ 8, true⟩ : LoopState K R) [⟨none, []⟩]
      = .fatal ⟨m0, 2 ^ 9, true⟩
  norm_num [runLoop, loopStep]

/-- Claim C3, witnessed at the concrete inputs `n = 8` and the ninth
failure, with mirror `[]` over `ℕ` keys. -/
theorem C3_backoff_sequence_holds :
    (8 ≤ 8)
      ∧ runLoop (id : ℕ → ℕ) ⟨[], 1, true⟩ (List.replicate 8 ⟨none, []⟩)
        = .running ⟨[], 2 ^ 8, true⟩
      ∧ runLoop (id : ℕ → ℕ) ⟨[], 1, true⟩ (List.replicate 9 ⟨none, []⟩)
        = .fatal ⟨[], 2 ^ 9, true⟩ :=
  ⟨by norm_num, (C3_backoff_sequence id [] 8 (by norm_num)).1,
   (C3_backoff_sequence id [] 8 (by norm_num)).2⟩

/-- Claim C6 is false on the code: after one failure (delay 0.2 s, i.e. 2
tenths), a subscription that opens successfully but fails before
delivering any event does not reset the delay to the floor.  The code
(`loopStep`) doubles 0.2 s to 0.4 s (4 tenths), while resetting on every
successful (re)subscription as claimed (`loopStepResetOnSubscribe`) would
leave 0.2 s (2 tenths): the two disagree at this concrete input. -/
theorem C6_no_reset_on_subscribe :
    loopStep (id : ℕ → ℕ) ⟨[], 2, true⟩ ⟨some [], []⟩
        = .continueLoop ⟨[], 4, true⟩
      ∧ loopStepResetOnSubscribe (id : ℕ → ℕ) ⟨[], 2, true⟩ ⟨some [], []⟩
        = .continueLoop ⟨[], 2, true⟩
      ∧ StepOutcome.continueLoop (⟨[], 4, true⟩ : LoopState ℕ ℕ)
        ≠ .continueLoop ⟨[], 2, true⟩ :=
  ⟨rfl, rfl, by decide⟩

/-- Claim C6 as amended: the backoff delay is reset to its floor value on
every successfully received event (line 119), not when the subscription is
opened; consequently, every iteration whose subscription delivers at least
one event before failing ends with the floor delay doubled once (0.2 s = 2
tenths), whatever the delay was before. -/
theorem C6_reset_on_event {K R : Type} [DecidableEq K] (name : R → K)
    (s : LoopState K R) (evs : List (WatchEvent R)) (h : evs ≠ []) :
    (∀ s₀ : LoopState K R, (evs.foldl (handleEvent name) s₀).curDelay = 1)
      ∧ ∀ items : List R, ∃ m : List (K × R),
          loopStep name s ⟨some items, evs⟩ = .continueLoop ⟨m, 2, true⟩ := by
  refine ⟨fun s₀ => foldl_handleEvent_curDelay name evs s₀ h, fun items => ?_⟩
  refine ⟨(evs.foldl (handleEvent name)
    (⟨list_and_update name s.resources items, s.curDelay, true⟩ :
      LoopState K R)).resources, ?_⟩
  rw [loopStep_some,
    foldl_handleEvent_curDelay name evs
      (⟨list_and_update name s.resources items, s.curDelay, true⟩ :
        LoopState K R) h,
    foldl_handleEvent_watchBound name evs
      (⟨list_and_update name s.resources items, s.curDelay, true⟩ :
        LoopState K R)]
  norm_num

/-- Claim C6 as amended, witnessed: a single "ADDED" event resets the
delay from 0.7 s (7 tenths) to the floor, and the iteration ends at the
doubled floor delay. -/
theorem C6_reset_on_event_holds :
    ([(⟨"ADDED", 3⟩ : WatchEvent ℕ)] ≠ [])
      ∧ ([(⟨"ADDED", 3⟩ : WatchEvent ℕ)].foldl (handleEvent (id : ℕ → ℕ))
          ⟨[], 7, false⟩).curDelay = 1
      ∧ ∃ m : List (ℕ × ℕ),
          loopStep (id : ℕ → ℕ) ⟨[], 7, false⟩ ⟨some [5], [⟨"ADDED", 3⟩]⟩
            = .continueLoop ⟨m, 2, true⟩ :=
  ⟨by decide,
   (C6_reset_on_event id ⟨[], 7, false⟩ [⟨"ADDED", 3⟩] (by decide)).1
     ⟨[], 7, false⟩,
   (C6_reset_on_event id ⟨[], 7, false⟩ [⟨"ADDED", 3⟩] (by decide)).2 [5]⟩

/-- Claim C5: calling `start` while the watch thread attribute already
exists raises `ValueError` immediately (line 148): the call errors, the
instance state is exactly unchanged, and neither thread creation nor
thread start appears in the call's trace, so no second background context
is created or started. -/
theorem C5_double_start_fails_fast {K R : Type} [DecidableEq K]
    (name : R → K) (items : List R) (s : ReflectorState K R)
    (h : s.hasWatchThread = true) :
    (start name items s).err = some .alreadyRunning
      ∧ (start name items s).state = s
      ∧ (start name items s).state.threadsStarted = s.threadsStarted
      ∧ StartAction.createThread ∉ (start name items s).trace
      ∧ StartAction.startThread ∉ (start name items s).trace := by
  simp [start, h]

/-- Claim C5, witnessed on a concrete already-running instance. -/
theorem C5_double_start_fails_fast_holds :
    (⟨[(1, 1)], true, 1, 1⟩ : ReflectorState ℕ ℕ).hasWatchThread = true
      ∧ ((start (id : ℕ → ℕ) [2] ⟨[(1, 1)], true, 1, 1⟩).err
          = some .alreadyRunning
        ∧ (start (id : ℕ → ℕ) [2] ⟨[(1, 1)], true, 1, 1⟩).state
          = ⟨[(1, 1)], true, 1, 1⟩
        ∧ (start (id : ℕ → ℕ) [2] ⟨[(1, 1)], true, 1, 1⟩).state.threadsStarted
          = (⟨[(1, 1)], true, 1, 1⟩ : ReflectorState ℕ ℕ).threadsStarted
        ∧ StartAction.createThread
          ∉ (start (id : ℕ → ℕ) [2] ⟨[(1, 1)], true, 1, 1⟩).trace
        ∧ StartAction.startThread
          ∉ (start (id : ℕ → ℕ) [2] ⟨[(1, 1)], true, 1, 1⟩).trace) :=
  ⟨rfl, C5_double_start_fails_fast id [2] ⟨[(1, 1)], true, 1, 1⟩ rfl⟩

/-- Claim C7: on a first start, the blocking full fetch runs and completes
— its result is installed in the mirror — strictly before the background
watch thread is created, which itself precedes its start; in particular
the trace is exactly check, fetch, create, start and the call raises
nothing. -/
theorem C7_fetch_completes_before_thread {K R : Type} [DecidableEq K]
    (name : R → K) (items : List R) (s : ReflectorState K R)
    (h : s.hasWatchThread = false) :
    (start name items s).trace
        = [.checkRunning, .fullFetch, .createThread, .startThread]
      ∧ (start name items s).state.resources = buildMirror name items
      ∧ (start name items s).err = none
      ∧ (start name items s).trace.indexOf .fullFetch
          < (start name items s).trace.indexOf .createThread
      ∧ (start name items s).trace.indexOf .createThread
          < (start name items s).trace.indexOf .startThread := by
  refine ⟨by simp [start, h], by simp [start, h, list_and_update],
    by simp [start, h], ?_, ?_⟩ <;>
    simp only [start, h, Bool.false_eq_true, if_false] <;> decide

/-- Claim C7, witnessed on a concrete fresh instance. -/
theorem C7_fetch_completes_before_thread_holds :
    (⟨[], false, 0, 0⟩ : ReflectorState ℕ ℕ).hasWatchThread = false
      ∧ ((start (id : ℕ → ℕ) [4] ⟨[], false, 0, 0⟩).trace
          = [.checkRunning, .fullFetch, .createThread, .startThread]
        ∧ (start (id : ℕ → ℕ) [4] ⟨[], false, 0, 0⟩).state.resources
          = buildMirror id [4]
        ∧ (start (id : ℕ → ℕ) [4] ⟨[], false, 0, 0⟩).err = none
        ∧ (start (id : ℕ → ℕ) [4] ⟨[], false, 0, 0⟩).trace.indexOf .fullFetch
          < (start (id : ℕ → ℕ) [4] ⟨[], false, 0, 0⟩).trace.indexOf
              .createThread
        ∧ (start (id : ℕ → ℕ) [4] ⟨[], false, 0, 0⟩).trace.indexOf
              .createThread
          < (start (id : ℕ → ℕ) [4] ⟨[], false, 0, 0⟩).trace.indexOf
              .startThread) :=
  ⟨rfl, C7_fetch_completes_before_thread id [4] ⟨[], false, 0, 0⟩ rfl⟩

/-- Claim C10: a second `start` on an already-running instance raises
before any fetch or mutation: the mirror is exactly unchanged, the fetch
counter is unchanged, no fetch action appears in the trace, and the error
is raised. -/
theorem C10_failed_start_mutates_nothing {K R : Type} [DecidableEq K]
    (name : R → K) (items : List R) (s : ReflectorState K R)
    (h : s.hasWatchThread = true) :
    (start name items s).state.resources = s.resources
      ∧ (start name items s).state.fetchCount = s.fetchCount
      ∧ StartAction.fullFetch ∉ (start name items s).trace
      ∧ (start name items s).err = some .alreadyRunning := by
  simp [start, h]

/-- Claim C10, witnessed on a concrete already-running instance with a
non-empty mirror. -/
theorem C10_failed_start_mutates_nothing_holds :
    (⟨[(3, 3), (4, 4)], true, 1, 2⟩ : ReflectorState ℕ ℕ).hasWatchThread = true
      ∧ ((start (id : ℕ → ℕ) [9] ⟨[(3, 3), (4, 4)], true, 1, 2⟩).state.resources
          = [(3, 3), (4, 4)]
        ∧ (start (id : ℕ → ℕ) [9] ⟨[(3, 3), (4, 4)], true, 1, 2⟩).state.fetchCount
          = (⟨[(3, 3), (4, 4)], true, 1, 2⟩ : ReflectorState ℕ ℕ).fetchCount
        ∧ StartAction.fullFetch
          ∉ (start (id : ℕ → ℕ) [9] ⟨[(3, 3), (4, 4)], true, 1, 2⟩).trace
        ∧ (start (id : ℕ → ℕ) [9] ⟨[(3, 3), (4, 4)], true, 1, 2⟩).err
          = some .alreadyRunning) :=
  ⟨rfl, C10_failed_start_mutates_nothing id [9] ⟨[(3, 3), (4, 4)], true, 1, 2⟩ rfl⟩
